import Mathlib

/-!
Verification development for the x402 payment-gated proxy MCP server.

Shallow embedding of the core modules:
  * `src/x402/client.ts`   — `X402Client` (402 challenge → pay → proof submission)
  * `src/x402/wallet.ts`   — `AgentWallet` (USDC balance reads and transfers)
  * `src/x402/session-cache.ts` — `X402SessionCache` (wallet-scoped local persistence)
  * `src/x402/handlers.ts` — MCP tool handlers (`x402_get_proxy` and friends)

Modelling conventions:
  * Micro-USDC amounts (strings fed to `BigInt` in the source) are `Nat`.
  * Timestamps (ISO strings fed to `new Date(..)` in the source) are `Int`
    epoch milliseconds; `new Date(s.expiresAt) > now` becomes `now < s.expiresAt`.
  * HTTP and RPC effects are captured by an explicit environment record; the
    wallet operations performed during a call are returned as an explicit trace.
  * JavaScript `Number` arithmetic in the handler's price estimate is modelled
    over `ℚ` (the rate constants are small decimals, exact in `ℚ`).
-/

/-- Model of JavaScript `String.prototype.toLowerCase` restricted to the basic
latin range (sufficient for hex wallet addresses), as used by the session
cache's ownership comparison. -/
def toLowerCase (s : String) : String := ⟨s.data.map Char.toLower⟩

theorem char_toNat_ofNat_of_valid (n : Nat) (h : n.isValidChar) :
    (Char.ofNat n).toNat = n := by
  unfold Char.ofNat
  rw [dif_pos h]
  rfl

theorem char_toLower_toLower (c : Char) : c.toLower.toLower = c.toLower := by
  unfold Char.toLower
  by_cases h : c.toNat ≥ 65 ∧ c.toNat ≤ 90
  · rw [if_pos h]
    have hv : Nat.isValidChar (c.toNat + 32) := Or.inl (by omega)
    have ht : (Char.ofNat (c.toNat + 32)).toNat = c.toNat + 32 :=
      char_toNat_ofNat_of_valid _ hv
    rw [if_neg]
    rw [ht]
    omega
  · rw [if_neg h, if_neg h]

theorem list_map_toLower_idem (l : List Char) :
    (l.map Char.toLower).map Char.toLower = l.map Char.toLower := by
  induction l with
  | nil => rfl
  | cons c t ih => simp only [List.map_cons, char_toLower_toLower, ih]

theorem toLowerCase_toLowerCase (s : String) :
    toLowerCase (toLowerCase s) = toLowerCase s :=
  congrArg String.mk (list_map_toLower_idem s.data)

/-- Substring membership on character lists (model of JavaScript
`String.prototype.includes`), used to state what an error message contains. -/
def listContainsSub (sub : List Char) : List Char → Bool
  | [] => sub.isPrefixOf []
  | c :: t => sub.isPrefixOf (c :: t) || listContainsSub sub t

/-- `strContains s sub` holds when `sub` occurs contiguously inside `s`. -/
def strContains (s sub : String) : Bool := listContainsSub sub.data s.data

theorem listContainsSub_of_isPrefixOf {sub l : List Char}
    (h : sub.isPrefixOf l = true) : listContainsSub sub l = true := by
  cases l with
  | nil => simpa [listContainsSub] using h
  | cons c t => simp [listContainsSub, h]

theorem listContainsSub_append (a sub b : List Char) :
    listContainsSub sub (a ++ (sub ++ b)) = true := by
  induction a with
  | nil =>
    apply listContainsSub_of_isPrefixOf
    rw [List.isPrefixOf_iff_prefix]
    simp
  | cons c t ih =>
    simp [listContainsSub]
    right
    simpa using ih

theorem strContains_append (a sub b : String) :
    strContains (a ++ sub ++ b) sub = true := by
  unfold strContains
  have hd : (a ++ sub ++ b).data = a.data ++ (sub.data ++ b.data) := by
    simp [String.data_append]
  rw [hd]
  exact listContainsSub_append a.data sub.data b.data

/-- Decimal rendering of `micro / 1e6` with two fraction digits, rounding half
up: model of JavaScript `(Number(micro) / 1e6).toFixed(2)` for the magnitudes
used by the program. -/
def natToFixed2 (micro : Nat) : String :=
  let cents := (micro + 5000) / 10000
  let ip := cents / 100
  let fp := cents % 100
  toString ip ++ "." ++ (if fp < 10 then "0" ++ toString fp else toString fp)

/-- Model of JavaScript `q.toFixed(2)` for a nonnegative rational `q`. -/
def qToFixed2 (q : ℚ) : String :=
  let cents := (Rat.floor (q * 100 + 1 / 2)).toNat
  let ip := cents / 100
  let fp := cents % 100
  toString ip ++ "." ++ (if fp < 10 then "0" ++ toString fp else toString fp)

/-- Left-pad the decimal rendering of `n < 1000000` to six digits. -/
def pad6 (n : Nat) : String :=
  let s := toString n
  String.mk (List.replicate (6 - s.length) '0') ++ s

/-- Drop trailing `'0'` characters. -/
def stripTrailingZeros (s : String) : String :=
  String.mk ((s.data.reverse.dropWhile (fun c => c == '0')).reverse)

/-- Default JavaScript decimal printing of `Number(micro) / 1e6` (no trailing
zeros), used in the wallet's own insufficient-balance message. -/
def microToDecimalString (micro : Nat) : String :=
  let ip := micro / 1000000
  let fr := micro % 1000000
  if fr == 0 then toString ip
  else toString ip ++ "." ++ stripTrailingZeros (pad6 fr)

/-! ## Session cache data model (`src/x402/types.ts`, `src/x402/session-cache.ts`) -/

/-- Proxy connection credentials (`ProxyCredentials` in `types.ts`). -/
structure ProxyCredentials where
  host : String := ""
  httpPort : Nat := 0
  socksPort : Nat := 0
  username : String := ""
  password : String := ""
deriving DecidableEq

/-- Location descriptor (`LocationInfo` in `types.ts`). -/
structure LocationInfo where
  country : String := ""
  countryCode : String := ""
  city : Option String := none
  carrier : Option String := none
deriving DecidableEq

/-- Locally persisted session (`CachedSession` in `types.ts`); `expiresAt` is
the parsed epoch-millisecond value of the stored ISO timestamp. -/
structure CachedSession where
  id : String := ""
  proxy : ProxyCredentials := {}
  expiresAt : Int := 0
  location : LocationInfo := {}
  rotationUrl : String := ""
  rotationToken : String := ""
deriving DecidableEq

/-- Persisted cache document (`SessionCacheData` in `types.ts`); the
`lastUpdated` bookkeeping string is not consulted by any modelled operation
and is omitted. Since every mutating operation writes the whole document
through to disk, the in-memory state and the file contents coincide and are
modelled by one value. -/
structure SessionCacheData where
  walletAddress : String := ""
  sessions : List CachedSession := []
deriving DecidableEq

/-- Result of `getTimeRemaining` (raw seconds plus display string); `seconds`
is an `Int` so that "never negative" is a meaningful statement. -/
structure TimeRemaining where
  seconds : Int := 0
  display : String := ""
deriving DecidableEq

/-- Empty cache for a wallet (the fresh-cache branch of `load`). -/
def freshCache (thisWalletAddress : String) : SessionCacheData :=
  { walletAddress := thisWalletAddress, sessions := [] }

/-- `X402SessionCache.load`: read the persisted store (`none` models a
missing/unreadable/corrupt file); keep it only when the stored wallet address
matches case-insensitively, dropping entries already expired at `now`. The
first argument is the constructor-lowercased `this.walletAddress`. -/
def load (thisWalletAddress : String) (file : Option SessionCacheData)
    (now : Int) : SessionCacheData :=
  match file with
  | some data =>
    if toLowerCase data.walletAddress == thisWalletAddress then
      { data with
        sessions := data.sessions.filter (fun s => decide (now < s.expiresAt)) }
    else freshCache thisWalletAddress
  | none => freshCache thisWalletAddress

/-- The `X402SessionCache` constructor: lowercase the wallet address, then
`load` the persisted store. -/
def mkSessionCache (walletAddress : String) (file : Option SessionCacheData)
    (now : Int) : SessionCacheData :=
  load (toLowerCase walletAddress) file now

/-- `X402SessionCache.addSession`: drop any session with the same id, append
the new one, and persist. -/
def addSession (c : SessionCacheData) (session : CachedSession) :
    SessionCacheData :=
  { c with
    sessions := c.sessions.filter (fun s => s.id != session.id) ++ [session] }

/-- `X402SessionCache.cleanExpired`: drop sessions whose expiry is at or
before `now` (persisting when anything was dropped). -/
def cleanExpired (c : SessionCacheData) (now : Int) : SessionCacheData :=
  { c with
    sessions := c.sessions.filter (fun s => decide (now < s.expiresAt)) }

/-- `X402SessionCache.getSession`: prune expired entries, then look the id
up. -/
def getSession (c : SessionCacheData) (now : Int) (sessionId : String) :
    Option CachedSession :=
  (cleanExpired c now).sessions.find? (fun s => s.id == sessionId)

/-- `X402SessionCache.getActiveSessions`: prune expired entries, then return
(the pruned state and) a copy of the remaining sessions. -/
def getActiveSessions (c : SessionCacheData) (now : Int) :
    SessionCacheData × List CachedSession :=
  let pruned := cleanExpired c now
  (pruned, pruned.sessions)

/-- `X402SessionCache.getTimeRemaining`: look the session up (which prunes at
clock reading `now1`), then measure the remaining time against the later
clock reading `now2` (the source reads the clock again via `Date.now()`). -/
def getTimeRemaining (c : SessionCacheData) (sessionId : String)
    (now1 now2 : Int) : Option TimeRemaining :=
  match getSession c now1 sessionId with
  | none => none
  | some session =>
    let remainingMs := session.expiresAt - now2
    if remainingMs ≤ 0 then some { seconds := 0, display := "Expired" }
    else
      let seconds := remainingMs.toNat / 1000
      let minutes := seconds / 60
      let hours := minutes / 60
      let days := hours / 24
      let display :=
        if days > 0 then
          toString days ++ "d " ++ toString (hours % 24) ++ "h"
        else if hours > 0 then
          toString hours ++ "h " ++ toString (minutes % 60) ++ "m"
        else if minutes > 0 then
          toString minutes ++ "m " ++ toString (seconds % 60) ++ "s"
        else toString seconds ++ "s"
      some { seconds := (seconds : Int), display := display }

theorem find?_append_of_all_false {α : Type} (p : α → Bool) (l1 l2 : List α)
    (h : ∀ x ∈ l1, p x = false) : (l1 ++ l2).find? p = l2.find? p := by
  induction l1 with
  | nil => simp
  | cons a t ih =>
    have ha : p a = false := h a (by simp)
    rw [List.cons_append, List.find?_cons_of_neg _ (by simp [ha])]
    exact ih (fun x hx => h x (by simp [hx]))

/-- Claim C6: adding a session and then reconstructing the cache from the same
persisted file with the same wallet address round-trips: `getSession` returns
the session unchanged while its expiry is still in the future at both the
reconstruction-time and the read-time clock reading, and returns nothing once
it has expired at either reading (the entry is pruned). -/
theorem sessionCache_roundtrip (w : String) (c : SessionCacheData)
    (s : CachedSession) (now1 now2 : Int)
    (hw : c.walletAddress = toLowerCase w) :
    (now1 < s.expiresAt → now2 < s.expiresAt →
      getSession (mkSessionCache w (some (addSession c s)) now1) now2 s.id =
        some s) ∧
    (s.expiresAt ≤ now1 ∨ s.expiresAt ≤ now2 →
      getSession (mkSessionCache w (some (addSession c s)) now1) now2 s.id =
        none) := by
  have hwa : (addSession c s).walletAddress = c.walletAddress := rfl
  have hcond :
      (toLowerCase (addSession c s).walletAddress == toLowerCase w) = true := by
    rw [hwa, hw, toLowerCase_toLowerCase]
    exact beq_self_eq_true _
  have hmk : mkSessionCache w (some (addSession c s)) now1 =
      { walletAddress := c.walletAddress,
        sessions :=
          (c.sessions.filter (fun t => t.id != s.id) ++ [s]).filter
            (fun t => decide (now1 < t.expiresAt)) } := by
    simp only [mkSessionCache, load]
    rw [if_pos hcond]
    rfl
  constructor
  · intro h1 h2
    rw [hmk]
    unfold getSession cleanExpired
    simp only [List.filter_append]
    rw [find?_append_of_all_false]
    · simp [List.filter, h1, h2]
    · intro x hx
      have hx2 := List.mem_filter.mp hx
      have hx1 := List.mem_filter.mp hx2.1
      have hx0 := List.mem_filter.mp hx1.1
      have hid : (x.id != s.id) = true := hx0.2
      simpa using hid
  · intro hexp
    rw [hmk]
    unfold getSession cleanExpired
    simp only [List.filter_append]
    rw [List.find?_eq_none]
    intro x hx
    rcases List.mem_append.mp hx with hxl | hxr
    · have hx2 := List.mem_filter.mp hxl
      have hx1 := List.mem_filter.mp hx2.1
      have hx0 := List.mem_filter.mp hx1.1
      have hid : (x.id != s.id) = true := hx0.2
      simpa using hid
    · exfalso
      have hx2 := List.mem_filter.mp hxr
      have hx1 := List.mem_filter.mp hx2.1
      have hxs : x = s := by simpa using hx1.1
      have ht1 : (decide (now1 < x.expiresAt)) = true := hx1.2
      have ht2 : (decide (now2 < x.expiresAt)) = true := hx2.2
      rw [hxs] at ht1 ht2
      simp only [decide_eq_true_eq] at ht1 ht2
      rcases hexp with hl | hl <;> omega

/-- Claim C7: `getActiveSessions` is idempotent — a second call on the pruned
state with the same clock returns the same list — and no session whose expiry
is at or before `now` appears in the result. -/
theorem getActiveSessions_idempotent (c : SessionCacheData) (now : Int) :
    (getActiveSessions (getActiveSessions c now).1 now).2 =
      (getActiveSessions c now).2 ∧
    (getActiveSessions c now).2.all (fun s => decide (now < s.expiresAt)) =
      true := by
  constructor
  · unfold getActiveSessions cleanExpired
    simp [List.filter_filter]
  · unfold getActiveSessions cleanExpired
    simp only [List.all_eq_true]
    intro s hs
    exact (List.mem_filter.mp hs).2

/-- Claim C8: loading a cache file populated for wallet `w1` while
constructing for wallet `w2` keeps the stored sessions exactly when the two
addresses agree case-insensitively (expired entries are still pruned on load,
so with no expired entry the sessions are retained verbatim), and yields an
empty cache when they differ other than by letter case. -/
theorem sessionCache_wallet_isolation (w1 w2 : String) (c : SessionCacheData)
    (now : Int) (hw : c.walletAddress = toLowerCase w1) :
    (toLowerCase w1 ≠ toLowerCase w2 →
      (mkSessionCache w2 (some c) now).sessions = []) ∧
    (toLowerCase w1 = toLowerCase w2 →
      (mkSessionCache w2 (some c) now).sessions =
        c.sessions.filter (fun s => decide (now < s.expiresAt))) ∧
    (toLowerCase w1 = toLowerCase w2 →
      (∀ s ∈ c.sessions, now < s.expiresAt) →
      (mkSessionCache w2 (some c) now).sessions = c.sessions) := by
  have hcomp : toLowerCase c.walletAddress = toLowerCase w1 := by
    rw [hw, toLowerCase_toLowerCase]
  refine ⟨?_, ?_, ?_⟩
  · intro hne
    have hcond : (toLowerCase c.walletAddress == toLowerCase w2) = false := by
      rw [hcomp]
      exact beq_false_of_ne hne
    simp only [mkSessionCache, load]
    rw [if_neg (by simp [hcond])]
    rfl
  · intro heq
    have hcond : (toLowerCase c.walletAddress == toLowerCase w2) = true := by
      rw [hcomp, heq]
      exact beq_self_eq_true _
    simp only [mkSessionCache, load]
    rw [if_pos hcond]
  · intro heq hall
    have hcond : (toLowerCase c.walletAddress == toLowerCase w2) = true := by
      rw [hcomp, heq]
      exact beq_self_eq_true _
    simp only [mkSessionCache, load]
    rw [if_pos hcond]
    simp only []
    rw [List.filter_eq_self]
    intro a ha
    simpa using hall a ha

/-- Claim C9 (amended): `getTimeRemaining` measures the time remaining with a
clock reading `now2` taken after the pruning reading `now1` used by the
embedded `getSession` call. An id absent after pruning (in particular one
whose entry already expired at `now1`) yields `none`; an entry that survives
pruning but has nonpositive remaining time at `now2` yields raw seconds `0`
with display `"Expired"`; positive remaining time yields the floor of the
remaining whole seconds plus a display string; the raw seconds are never
negative. -/
theorem getTimeRemaining_spec (c : SessionCacheData) (sessionId : String)
    (now1 now2 : Int) :
    (getSession c now1 sessionId = none →
      getTimeRemaining c sessionId now1 now2 = none) ∧
    (∀ s, getSession c now1 sessionId = some s →
      (s.expiresAt ≤ now2 →
        getTimeRemaining c sessionId now1 now2 =
          some { seconds := 0, display := "Expired" }) ∧
      (now2 < s.expiresAt →
        ∃ d, getTimeRemaining c sessionId now1 now2 =
          some { seconds := ((s.expiresAt - now2).toNat / 1000 : Nat),
                 display := d })) ∧
    (∀ t, getTimeRemaining c sessionId now1 now2 = some t →
      0 ≤ t.seconds) := by
  refine ⟨?_, ?_, ?_⟩
  · intro h
    unfold getTimeRemaining
    rw [h]
  · intro s hs
    constructor
    · intro hexp
      unfold getTimeRemaining
      rw [hs]
      simp only []
      rw [if_pos (by omega)]
    · intro hpos
      unfold getTimeRemaining
      rw [hs]
      simp only []
      rw [if_neg (by omega)]
      exact ⟨_, rfl⟩
  · intro t ht
    unfold getTimeRemaining at ht
    rcases hg : getSession c now1 sessionId with _ | s
    · rw [hg] at ht
      simp at ht
    · rw [hg] at ht
      simp only [] at ht
      by_cases hle : s.expiresAt - now2 ≤ 0
      · rw [if_pos hle] at ht
        have : t = { seconds := 0, display := "Expired" } := by
          have := ht.symm
          simpa using this
        simp [this]
      · rw [if_neg hle] at ht
        have : t.seconds = (((s.expiresAt - now2).toNat / 1000 : Nat) : Int) := by
          have := Option.some.inj ht
          rw [← this]
        rw [this]
        positivity

/-- Concrete session used by the round-trip witness. -/
def rtSession : CachedSession := { id := "sess-rt", expiresAt := 1000 }

theorem sessionCache_roundtrip_witness :
    getSession (mkSessionCache "0xAbC"
        (some (addSession (freshCache (toLowerCase "0xAbC")) rtSession)) 100)
      200 rtSession.id = some rtSession :=
  (sessionCache_roundtrip "0xAbC" (freshCache (toLowerCase "0xAbC")) rtSession
    100 200 rfl).1 (by decide) (by decide)

/-- Concrete session used by the isolation witness. -/
def isoSession : CachedSession := { id := "sess-iso", expiresAt := 1000 }

/-- Cache file persisted by a cache constructed for wallet `0xAAbb`. -/
def isoCacheW1 : SessionCacheData :=
  { walletAddress := toLowerCase "0xAAbb", sessions := [isoSession] }

theorem sessionCache_wallet_isolation_witness :
    (mkSessionCache "0xCCdd" (some isoCacheW1) 100).sessions = [] ∧
    (mkSessionCache "0xaaBB" (some isoCacheW1) 100).sessions =
      isoCacheW1.sessions := by
  constructor
  · exact (sessionCache_wallet_isolation "0xAAbb" "0xCCdd" isoCacheW1 100
      rfl).1 (by decide)
  · exact (sessionCache_wallet_isolation "0xAAbb" "0xaaBB" isoCacheW1 100
      rfl).2.2 (by decide) (by decide)

/-- Concrete expired session exhibiting the C9 divergence. -/
def c9Session : CachedSession := { id := "sess-c9", expiresAt := 1000 }

/-- Cache holding the expired session. -/
def c9Cache : SessionCacheData :=
  { walletAddress := "0xabc", sessions := [c9Session] }

/-- Claim C9 as stated is false: with the session id present in the cache and
zero-or-negative remaining time (both clock readings at 2000, expiry 1000),
`getTimeRemaining` returns `none` — the entry is pruned by the embedded
`getSession` — rather than the claimed raw-seconds-0 "Expired" record. -/
theorem getTimeRemaining_expired_entry_returns_none :
    c9Session ∈ c9Cache.sessions ∧
    c9Session.expiresAt - 2000 < 0 ∧
    getTimeRemaining c9Cache "sess-c9" 2000 2000 = none ∧
    getTimeRemaining c9Cache "sess-c9" 2000 2000 ≠
      some { seconds := 0, display := "Expired" } := by
  refine ⟨?_, ?_, ?_, ?_⟩ <;> decide

/-- Concrete live session used by the C9 witness. -/
def c9wSession : CachedSession := { id := "sess-c9w", expiresAt := 5000 }

/-- Cache holding the live session. -/
def c9wCache : SessionCacheData :=
  { walletAddress := "0xabc", sessions := [c9wSession] }

theorem getTimeRemaining_spec_witness :
    (∃ d, getTimeRemaining c9wCache "sess-c9w" 1000 1000 =
      some { seconds := (((5000 : Int) - 1000).toNat / 1000 : Nat),
             display := d }) ∧
    getTimeRemaining c9wCache "sess-c9w" 1000 6000 =
      some { seconds := 0, display := "Expired" } := by
  constructor
  · exact ((getTimeRemaining_spec c9wCache "sess-c9w" 1000 1000).2.1
      c9wSession (by decide)).2 (by decide)
  · exact ((getTimeRemaining_spec c9wCache "sess-c9w" 1000 6000).2.1
      c9wSession (by decide)).1 (by decide)

/-! ## Payment protocol data model (`src/x402/types.ts`) -/

/-- Single payment option from a 402 challenge (`X402AcceptOption`);
`maxAmountRequired` (a decimal string in the source, consumed via `BigInt`)
is a `Nat` of micro-USDC; `network` is the exact network string. -/
structure X402AcceptOption where
  scheme : String := "exact"
  network : String := "base"
  chainId : String := ""
  maxAmountRequired : Nat := 0
  resource : String := ""
  description : String := ""
  mimeType : String := ""
  payTo : String := ""
  maxTimeoutSeconds : Nat := 0
  asset : String := ""
deriving DecidableEq

/-- Payment requirement parsed from a 402 body (`X402PaymentRequirement`);
the free-form `outputSchema`/`extra` records are not consulted by any
modelled operation and are omitted. -/
structure X402PaymentRequirement where
  x402Version : Nat := 1
  accepts : List X402AcceptOption := []
deriving DecidableEq

/-- Traffic allowance of a purchased session (`TrafficInfo`); the byte-level
and percentage fields, display-only, are omitted. -/
structure TrafficInfo where
  allowedGB : ℚ := 0
  usedGB : ℚ := 0
deriving DecidableEq

/-- Payment record attached to a purchase response. -/
structure X402PaymentInfo where
  network : String := "base"
  transactionHash : String := ""
  amountPaid : String := ""
  currency : String := "USDC"
deriving DecidableEq

/-- Purchased session as returned by the API (`X402Session`); its own payment
sub-record duplicates `X402ProxyResponse.payment` and is omitted here. -/
structure X402Session where
  id : String := ""
  status : String := "active"
  expiresAt : Int := 0
  proxy : ProxyCredentials := {}
  location : LocationInfo := {}
  traffic : TrafficInfo := {}
  rotationUrl : String := ""
  rotationToken : String := ""
deriving DecidableEq

/-- Body of a successful fulfillment response (`X402ProxyResponse`). -/
structure X402ProxyResponse where
  success : Bool := true
  session : X402Session := {}
  payment : X402PaymentInfo := {}
deriving DecidableEq

/-- Result of a confirmed USDC transfer (`TransferResult`). -/
structure TransferResult where
  transactionHash : String := ""
  network : String := "base"
  amount : Nat := 0
  recipient : String := ""
deriving DecidableEq

/-! ## Wallet model (`src/x402/wallet.ts`) -/

/-- One observable wallet operation: an on-chain balance read
(`balanceOf` behind `getBalance`) or an on-chain USDC transfer submission
(`writeContract transfer`). -/
inductive WalletOp where
  | balanceRead : WalletOp
  | transfer (recipient : String) (amountMicroUSDC : Nat) : WalletOp
deriving DecidableEq

/-- Whether a wallet operation is a transfer (an on-chain state change). -/
def WalletOp.isTransfer : WalletOp → Bool
  | .balanceRead => false
  | .transfer _ _ => true

/-- Outcome of the on-chain leg of `sendUSDC`: receipt confirmed, receipt
with non-success status, or an exception from the RPC layer. -/
inductive OnChainOutcome where
  | confirmed : OnChainOutcome
  | reverted : OnChainOutcome
  | rpcThrew (message : String) : OnChainOutcome
deriving DecidableEq

/-- Environment of one purchase call: the remote responses and on-chain
facts that determine the call's behaviour. `challengeStatus`/`challengeText`/
`challengeBody` describe the first (challenge) response, `walletBalance` the
USDC `balanceOf` value, `txHash`/`onChain` the transfer leg, and the
`fulfill*` fields the proof-submission response. -/
structure PurchaseEnv where
  challengeStatus : Nat := 402
  challengeText : String := ""
  challengeBody : Option X402PaymentRequirement := none
  walletAddress : String := ""
  walletBalance : Nat := 0
  txHash : String := ""
  onChain : OnChainOutcome := .confirmed
  fulfillOk : Bool := true
  fulfillStatus : Nat := 200
  fulfillErrMessage : String := ""
  fulfillBody : X402ProxyResponse := {}
deriving DecidableEq

/-- The wallet's own insufficient-balance message inside `sendUSDC`
(`Required` uses default JS number printing, `Available` the formatted
balance). -/
def walletInsufficientMessage (amountMicroUSDC balanceMicro : Nat) : String :=
  "Insufficient USDC balance. Required: " ++
    microToDecimalString amountMicroUSDC ++ " USDC, Available: $" ++
    natToFixed2 balanceMicro ++ " USDC"

/-- `sendUSDC`'s catch-block translation of an on-chain error message. -/
def wrapTransferError (message : String) : String :=
  if strContains message "insufficient funds" then
    "Insufficient ETH for gas fees. Please add ETH to your wallet."
  else if strContains message "user rejected" then
    "Transaction was rejected"
  else "USDC transfer failed: " ++ message

/-- `AgentWallet.sendUSDC`: validate the recipient format, re-check the
balance (one balance read; a failed check performs a second read for the
message), then submit the transfer and wait for its receipt. The returned
list is the trace of wallet operations performed. -/
def sendUSDC (env : PurchaseEnv) (recipient : String)
    (amountMicroUSDC : Nat) : Except String TransferResult × List WalletOp :=
  if ¬ (("0x".data.isPrefixOf recipient.data) = true ∧ recipient.length = 42)
  then (.error ("Invalid recipient address: " ++ recipient), [])
  else if env.walletBalance ≥ amountMicroUSDC then
    match env.onChain with
    | .confirmed =>
      (.ok { transactionHash := env.txHash, network := "base",
             amount := amountMicroUSDC, recipient := recipient },
       [.balanceRead, .transfer recipient amountMicroUSDC])
    | .reverted =>
      (.error (wrapTransferError "Transaction failed on-chain"),
       [.balanceRead, .transfer recipient amountMicroUSDC])
    | .rpcThrew m =>
      (.error (wrapTransferError m),
       [.balanceRead, .transfer recipient amountMicroUSDC])
  else
    (.error (walletInsufficientMessage amountMicroUSDC env.walletBalance),
     [.balanceRead, .balanceRead])

/-! ## Payment client model (`src/x402/client.ts`) -/

/-- `X402Client.getPaymentRequirement`: the only acceptable status at the
challenge step is 402, and its body must carry a `paymentRequirement`. -/
def getPaymentRequirement (env : PurchaseEnv) :
    Except String X402PaymentRequirement :=
  if env.challengeStatus ≠ 402 then
    .error ("Expected 402 Payment Required, got " ++
      toString env.challengeStatus ++ ": " ++ env.challengeText)
  else
    match env.challengeBody with
    | none => .error "Missing paymentRequirement in 402 response"
    | some r => .ok r

/-- `X402Client.findPaymentOption`: first option whose network equals the
preferred network, else the first listed option, else an error. -/
def findPaymentOption (preferredNetwork : String)
    (requirement : X402PaymentRequirement) : Except String X402AcceptOption :=
  match requirement.accepts.find? (fun a => a.network == preferredNetwork) with
  | some preferred => .ok preferred
  | none =>
    match requirement.accepts with
    | a :: _ => .ok a
    | [] => .error "No payment options available in 402 response"

/-- `X402Client.submitPaymentProof`: retry the original request carrying the
payment proof (transaction hash, network, payer address) in the `X-Payment`
header; a non-2xx response surfaces the status and the server's message. -/
def submitPaymentProof (env : PurchaseEnv) (_transactionHash : String)
    (_network : String) : Except String X402ProxyResponse :=
  if env.fulfillOk then .ok env.fulfillBody
  else
    .error ("Payment verification failed (" ++ toString env.fulfillStatus ++
      "): " ++ env.fulfillErrMessage)

/-- The client's insufficient-balance message in `purchaseProxy` (required
amount in fixed-2 dollars, formatted balance, then the wallet address to
fund). -/
def clientInsufficientMessage (requiredMicro balanceMicro : Nat)
    (walletAddress : String) : String :=
  "Insufficient USDC balance. Required: " ++
    ("$" ++ natToFixed2 requiredMicro) ++
    (", Available: $" ++ natToFixed2 balanceMicro ++
      " USDC. Please top up wallet: ") ++ walletAddress

/-- `X402Client.purchaseProxy`: challenge → select option → balance gate →
pay → submit proof. Returns the call's result together with the trace of
wallet operations performed. -/
def purchaseProxy (env : PurchaseEnv) (preferredNetwork : String) :
    Except String X402ProxyResponse × List WalletOp :=
  match getPaymentRequirement env with
  | .error e => (.error e, [])
  | .ok requirement =>
    match findPaymentOption preferredNetwork requirement with
    | .error e => (.error e, [])
    | .ok paymentOption =>
      if env.walletBalance ≥ paymentOption.maxAmountRequired then
        match sendUSDC env paymentOption.payTo paymentOption.maxAmountRequired
        with
        | (.error e, ops) => (.error e, .balanceRead :: ops)
        | (.ok transfer, ops) =>
          (submitPaymentProof env transfer.transactionHash transfer.network,
           .balanceRead :: ops)
      else
        (.error (clientInsufficientMessage paymentOption.maxAmountRequired
            env.walletBalance env.walletAddress),
         [.balanceRead, .balanceRead])

theorem getPaymentRequirement_eq_ok {env : PurchaseEnv}
    {req : X402PaymentRequirement} (h402 : env.challengeStatus = 402)
    (hb : env.challengeBody = some req) :
    getPaymentRequirement env = .ok req := by
  unfold getPaymentRequirement
  rw [if_neg (by simp [h402]), hb]

theorem getPaymentRequirement_ok {env : PurchaseEnv}
    {req : X402PaymentRequirement} (h : getPaymentRequirement env = .ok req) :
    env.challengeStatus = 402 ∧ env.challengeBody = some req := by
  unfold getPaymentRequirement at h
  by_cases h402 : env.challengeStatus = 402
  · rw [if_neg (by simp [h402])] at h
    cases hb : env.challengeBody with
    | none =>
      rw [hb] at h
      exact absurd h (by simp)
    | some r =>
      rw [hb] at h
      have hr : r = req := Except.ok.inj h
      subst hr
      exact ⟨h402, rfl⟩
  · rw [if_pos h402] at h
    exact absurd h (by simp)

theorem clientInsufficientMessage_parts (requiredMicro balanceMicro : Nat)
    (walletAddress : String) :
    strContains (clientInsufficientMessage requiredMicro balanceMicro
        walletAddress) ("$" ++ natToFixed2 requiredMicro) = true ∧
    strContains (clientInsufficientMessage requiredMicro balanceMicro
        walletAddress) walletAddress = true := by
  constructor
  · have h : clientInsufficientMessage requiredMicro balanceMicro
        walletAddress =
        "Insufficient USDC balance. Required: " ++
          ("$" ++ natToFixed2 requiredMicro) ++
          ((", Available: $" ++ natToFixed2 balanceMicro ++
            " USDC. Please top up wallet: ") ++ walletAddress) := by
      unfold clientInsufficientMessage
      rw [String.append_assoc]
    rw [h]
    exact strContains_append _ _ _
  · have h : clientInsufficientMessage requiredMicro balanceMicro
        walletAddress =
        ("Insufficient USDC balance. Required: " ++
          ("$" ++ natToFixed2 requiredMicro) ++
          (", Available: $" ++ natToFixed2 balanceMicro ++
            " USDC. Please top up wallet: ")) ++ walletAddress ++ "" := by
      unfold clientInsufficientMessage
      rw [String.append_empty]
    rw [h]
    exact strContains_append _ _ _

/-- Claim C2: when the wallet balance is strictly below the selected option's
required amount, `purchaseProxy` fails with the insufficient-balance message
— which names the required dollar amount and the wallet address to fund —
after exactly two balance reads, and no transfer (no on-chain state change)
is ever attempted: `sendUSDC` is not invoked. -/
theorem purchaseProxy_insufficient_balance (env : PurchaseEnv)
    (preferredNetwork : String) (req : X402PaymentRequirement)
    (opt : X402AcceptOption)
    (h402 : env.challengeStatus = 402)
    (hb : env.challengeBody = some req)
    (hopt : findPaymentOption preferredNetwork req = .ok opt)
    (hlt : env.walletBalance < opt.maxAmountRequired) :
    purchaseProxy env preferredNetwork =
      (.error (clientInsufficientMessage opt.maxAmountRequired
          env.walletBalance env.walletAddress),
       [.balanceRead, .balanceRead]) ∧
    strContains (clientInsufficientMessage opt.maxAmountRequired
        env.walletBalance env.walletAddress)
      ("$" ++ natToFixed2 opt.maxAmountRequired) = true ∧
    strContains (clientInsufficientMessage opt.maxAmountRequired
        env.walletBalance env.walletAddress) env.walletAddress = true ∧
    ∀ op ∈ (purchaseProxy env preferredNetwork).2,
      op.isTransfer = false := by
  have hmain : purchaseProxy env preferredNetwork =
      (.error (clientInsufficientMessage opt.maxAmountRequired
          env.walletBalance env.walletAddress),
       [.balanceRead, .balanceRead]) := by
    simp only [purchaseProxy, getPaymentRequirement_eq_ok h402 hb, hopt]
    rw [if_neg (by omega)]
  refine ⟨hmain, (clientInsufficientMessage_parts _ _ _).1,
    (clientInsufficientMessage_parts _ _ _).2, ?_⟩
  rw [hmain]
  intro op hop
  simp only [List.mem_cons, List.not_mem_nil, or_false] at hop
  rcases hop with rfl | rfl <;> rfl

/-- Claim C3: a non-402 challenge status (including 200), a 402 body without
a `paymentRequirement`, or a `paymentRequirement` with an empty option list
each make `purchaseProxy` fail before any wallet operation: the trace is
empty (no balance read, no transfer). -/
theorem purchaseProxy_protocol_violation_no_wallet_ops (env : PurchaseEnv)
    (preferredNetwork : String)
    (h : env.challengeStatus ≠ 402 ∨ env.challengeBody = none ∨
         (∃ r, env.challengeBody = some r ∧ r.accepts = [])) :
    ∃ e, purchaseProxy env preferredNetwork = (.error e, []) := by
  by_cases h402 : env.challengeStatus = 402
  · rcases h with h1 | hb | ⟨r, hb, hacc⟩
    · exact absurd h402 h1
    · refine ⟨"Missing paymentRequirement in 402 response", ?_⟩
      have hreq : getPaymentRequirement env =
          .error "Missing paymentRequirement in 402 response" := by
        unfold getPaymentRequirement
        rw [if_neg (by simp [h402]), hb]
      simp only [purchaseProxy, hreq]
    · refine ⟨"No payment options available in 402 response", ?_⟩
      have hfo : findPaymentOption preferredNetwork r =
          .error "No payment options available in 402 response" := by
        unfold findPaymentOption
        rw [hacc]
        simp [List.find?]
      simp only [purchaseProxy, getPaymentRequirement_eq_ok h402 hb, hfo]
  · refine ⟨"Expected 402 Payment Required, got " ++
      toString env.challengeStatus ++ ": " ++ env.challengeText, ?_⟩
    have hreq : getPaymentRequirement env =
        .error ("Expected 402 Payment Required, got " ++
          toString env.challengeStatus ++ ": " ++ env.challengeText) := by
      unfold getPaymentRequirement
      rw [if_pos h402]
    simp only [purchaseProxy, hreq]

theorem sendUSDC_invalid_eq {env : PurchaseEnv} {recipient : String}
    {amount : Nat}
    (hval : ¬ (("0x".data.isPrefixOf recipient.data) = true ∧
      recipient.length = 42)) :
    sendUSDC env recipient amount =
      (.error ("Invalid recipient address: " ++ recipient), []) := by
  unfold sendUSDC
  rw [if_pos hval]

theorem sendUSDC_confirmed_eq {env : PurchaseEnv} {recipient : String}
    {amount : Nat}
    (hval : ("0x".data.isPrefixOf recipient.data) = true ∧
      recipient.length = 42)
    (hbal : amount ≤ env.walletBalance)
    (hconf : env.onChain = .confirmed) :
    sendUSDC env recipient amount =
      (.ok { transactionHash := env.txHash, network := "base",
             amount := amount, recipient := recipient },
       [.balanceRead, .transfer recipient amount]) := by
  unfold sendUSDC
  rw [if_neg (by simp only [not_not]; exact hval), if_pos (by omega), hconf]

theorem sendUSDC_onchain_fail_eq {env : PurchaseEnv} {recipient : String}
    {amount : Nat}
    (hval : ("0x".data.isPrefixOf recipient.data) = true ∧
      recipient.length = 42)
    (hbal : amount ≤ env.walletBalance)
    (hfail : env.onChain ≠ .confirmed) :
    ∃ e, sendUSDC env recipient amount =
      (.error e, [.balanceRead, .transfer recipient amount]) := by
  unfold sendUSDC
  rw [if_neg (by simp only [not_not]; exact hval), if_pos (by omega)]
  cases hoc : env.onChain with
  | confirmed => exact absurd hoc hfail
  | reverted =>
    exact ⟨wrapTransferError "Transaction failed on-chain", rfl⟩
  | rpcThrew m =>
    exact ⟨wrapTransferError m, rfl⟩

theorem purchaseProxy_after_gate (env : PurchaseEnv)
    (preferredNetwork : String) (req : X402PaymentRequirement)
    (opt : X402AcceptOption)
    (h402 : env.challengeStatus = 402)
    (hb : env.challengeBody = some req)
    (hopt : findPaymentOption preferredNetwork req = .ok opt)
    (hbal : opt.maxAmountRequired ≤ env.walletBalance) :
    purchaseProxy env preferredNetwork =
      (match sendUSDC env opt.payTo opt.maxAmountRequired with
       | (.error e, sops) => (.error e, .balanceRead :: sops)
       | (.ok transfer, sops) =>
         (submitPaymentProof env transfer.transactionHash transfer.network,
          .balanceRead :: sops)) := by
  simp only [purchaseProxy, getPaymentRequirement_eq_ok h402 hb, hopt]
  rw [if_pos (by omega)]

/-- Claim C1 (amended): given a successful on-chain payment followed by a
non-2xx fulfillment response, `purchaseProxy` fails — no session is returned
and the trace shows the money already left the wallet — with the
payment-verification message carrying the fulfillment HTTP status and the
server-provided message; the transaction hash is not part of that message. -/
theorem purchaseProxy_postPayment_fulfillment_failure (env : PurchaseEnv)
    (preferredNetwork : String) (req : X402PaymentRequirement)
    (opt : X402AcceptOption)
    (h402 : env.challengeStatus = 402)
    (hb : env.challengeBody = some req)
    (hopt : findPaymentOption preferredNetwork req = .ok opt)
    (hval : ("0x".data.isPrefixOf opt.payTo.data) = true ∧
      opt.payTo.length = 42)
    (hbal : opt.maxAmountRequired ≤ env.walletBalance)
    (hconf : env.onChain = .confirmed)
    (hful : env.fulfillOk = false) :
    purchaseProxy env preferredNetwork =
      (.error ("Payment verification failed (" ++
          toString env.fulfillStatus ++ "): " ++ env.fulfillErrMessage),
       [.balanceRead, .balanceRead,
        .transfer opt.payTo opt.maxAmountRequired]) := by
  have hsubmit : submitPaymentProof env env.txHash "base" =
      .error ("Payment verification failed (" ++
        toString env.fulfillStatus ++ "): " ++ env.fulfillErrMessage) := by
    unfold submitPaymentProof
    rw [if_neg (by simp [hful])]
  rw [purchaseProxy_after_gate env preferredNetwork req opt h402 hb hopt hbal]
  simp only [sendUSDC_confirmed_eq hval hbal hconf, hsubmit]

/-- Payment option used by the C1 scenario. -/
def c1Option : X402AcceptOption :=
  { network := "base", maxAmountRequired := 4000000,
    payTo := "0x1111111111111111111111111111111111111111" }

/-- Concrete environment: valid 402 challenge, sufficient balance, confirmed
on-chain payment, then a 500 fulfillment response. -/
def c1Env : PurchaseEnv :=
  { challengeStatus := 402,
    challengeBody := some { accepts := [c1Option] },
    walletAddress := "0x2222222222222222222222222222222222222222",
    walletBalance := 5000000,
    txHash := "0xfeedc0de00000000000000000000000000000000000000000000000000000000",
    onChain := .confirmed,
    fulfillOk := false,
    fulfillStatus := 500,
    fulfillErrMessage := "Unknown error" }

/-- Claim C1 as stated is false at this input: the payment succeeded (the
transfer is in the trace) and the fulfillment response was non-2xx, so the
call fails with no session — but the surfaced error message does not contain
the transaction hash of the payment. -/
theorem purchaseProxy_fulfillment_error_lacks_txHash :
    (purchaseProxy c1Env "base").1 =
      .error "Payment verification failed (500): Unknown error" ∧
    WalletOp.transfer c1Option.payTo 4000000 ∈
      (purchaseProxy c1Env "base").2 ∧
    strContains "Payment verification failed (500): Unknown error"
      c1Env.txHash = false := by
  refine ⟨rfl, by decide, rfl⟩

theorem purchaseProxy_postPayment_fulfillment_failure_witness :
    purchaseProxy c1Env "base" =
      (.error ("Payment verification failed (" ++
          toString c1Env.fulfillStatus ++ "): " ++ c1Env.fulfillErrMessage),
       [.balanceRead, .balanceRead,
        .transfer c1Option.payTo c1Option.maxAmountRequired]) :=
  purchaseProxy_postPayment_fulfillment_failure c1Env "base"
    { accepts := [c1Option] } c1Option rfl rfl rfl (by decide) (by decide)
    rfl rfl

/-- Payment option used by the C2 witness. -/
def c2Option : X402AcceptOption :=
  { network := "base", maxAmountRequired := 4000000,
    payTo := "0x1111111111111111111111111111111111111111" }

/-- Concrete environment with balance strictly below the required amount. -/
def c2Env : PurchaseEnv :=
  { challengeStatus := 402,
    challengeBody := some { accepts := [c2Option] },
    walletAddress := "0x3333333333333333333333333333333333333333",
    walletBalance := 1000000 }

theorem purchaseProxy_insufficient_balance_witness :
    purchaseProxy c2Env "base" =
      (.error (clientInsufficientMessage c2Option.maxAmountRequired
          c2Env.walletBalance c2Env.walletAddress),
       [.balanceRead, .balanceRead]) ∧
    strContains (clientInsufficientMessage c2Option.maxAmountRequired
        c2Env.walletBalance c2Env.walletAddress)
      ("$" ++ natToFixed2 c2Option.maxAmountRequired) = true ∧
    strContains (clientInsufficientMessage c2Option.maxAmountRequired
        c2Env.walletBalance c2Env.walletAddress) c2Env.walletAddress = true ∧
    ∀ op ∈ (purchaseProxy c2Env "base").2, op.isTransfer = false :=
  purchaseProxy_insufficient_balance c2Env "base" { accepts := [c2Option] }
    c2Option rfl rfl rfl (by decide)

/-- Concrete environment answering 200 at the challenge step. -/
def c3Env : PurchaseEnv := { challengeStatus := 200, challengeText := "OK" }

theorem purchaseProxy_protocol_violation_witness :
    ∃ e, purchaseProxy c3Env "base" = (.error e, []) :=
  purchaseProxy_protocol_violation_no_wallet_ops c3Env "base"
    (Or.inl (by decide))

/-- Claim C4: every successful purchase submitted exactly one transfer, of
exactly the selected option's `maxAmountRequired`, to exactly that option's
`payTo` recipient, and returned the fulfillment body. -/
theorem purchaseProxy_transfer_exact_amount (env : PurchaseEnv)
    (preferredNetwork : String) (res : X402ProxyResponse)
    (ops : List WalletOp)
    (h : purchaseProxy env preferredNetwork = (.ok res, ops)) :
    ∃ req opt, env.challengeBody = some req ∧
      findPaymentOption preferredNetwork req = .ok opt ∧
      ops = [.balanceRead, .balanceRead,
             .transfer opt.payTo opt.maxAmountRequired] ∧
      res = env.fulfillBody := by
  by_cases h402 : env.challengeStatus = 402
  · cases hcb : env.challengeBody with
    | none =>
      have hreq : getPaymentRequirement env =
          .error "Missing paymentRequirement in 402 response" := by
        unfold getPaymentRequirement
        rw [if_neg (by simp [h402]), hcb]
      have hcalc : purchaseProxy env preferredNetwork =
          (.error "Missing paymentRequirement in 402 response", []) := by
        simp only [purchaseProxy, hreq]
      rw [hcalc] at h
      injection h with h1 h2
      exact Except.noConfusion h1
    | some req =>
      cases hfo : findPaymentOption preferredNetwork req with
      | error e =>
        have hcalc : purchaseProxy env preferredNetwork =
            (.error e, []) := by
          simp only [purchaseProxy, getPaymentRequirement_eq_ok h402 hcb, hfo]
        rw [hcalc] at h
        injection h with h1 h2
        exact Except.noConfusion h1
      | ok opt =>
        by_cases hbal : opt.maxAmountRequired ≤ env.walletBalance
        · by_cases hval : ("0x".data.isPrefixOf opt.payTo.data) = true ∧
            opt.payTo.length = 42
          · cases hoc : env.onChain with
            | confirmed =>
              by_cases hfl : env.fulfillOk = true
              · have hcalc : purchaseProxy env preferredNetwork =
                    (.ok env.fulfillBody,
                     [.balanceRead, .balanceRead,
                      .transfer opt.payTo opt.maxAmountRequired]) := by
                  rw [purchaseProxy_after_gate env preferredNetwork req opt
                    h402 hcb hfo hbal]
                  simp only [sendUSDC_confirmed_eq hval hbal hoc]
                  unfold submitPaymentProof
                  rw [if_pos hfl]
                rw [hcalc] at h
                injection h with h1 h2
                injection h1 with h1
                exact ⟨req, opt, rfl, hfo, h2.symm, h1.symm⟩
              · have hfl' : env.fulfillOk = false := by
                  cases hfb : env.fulfillOk
                  · rfl
                  · exact absurd hfb hfl
                have hcalc : purchaseProxy env preferredNetwork =
                    (.error ("Payment verification failed (" ++
                        toString env.fulfillStatus ++ "): " ++
                        env.fulfillErrMessage),
                     [.balanceRead, .balanceRead,
                      .transfer opt.payTo opt.maxAmountRequired]) := by
                  rw [purchaseProxy_after_gate env preferredNetwork req opt
                    h402 hcb hfo hbal]
                  simp only [sendUSDC_confirmed_eq hval hbal hoc]
                  unfold submitPaymentProof
                  rw [if_neg (by simp [hfl'])]
                rw [hcalc] at h
                injection h with h1 h2
                exact Except.noConfusion h1
            | reverted =>
              obtain ⟨e, hsend⟩ :=
                sendUSDC_onchain_fail_eq hval hbal
                  (by simp [hoc])
              have hcalc : purchaseProxy env preferredNetwork =
                  (.error e,
                   [.balanceRead, .balanceRead,
                    .transfer opt.payTo opt.maxAmountRequired]) := by
                rw [purchaseProxy_after_gate env preferredNetwork req opt
                  h402 hcb hfo hbal]
                simp only [hsend]
              rw [hcalc] at h
              injection h with h1 h2
              exact Except.noConfusion h1
            | rpcThrew m =>
              obtain ⟨e, hsend⟩ :=
                sendUSDC_onchain_fail_eq hval hbal
                  (by simp [hoc])
              have hcalc : purchaseProxy env preferredNetwork =
                  (.error e,
                   [.balanceRead, .balanceRead,
                    .transfer opt.payTo opt.maxAmountRequired]) := by
                rw [purchaseProxy_after_gate env preferredNetwork req opt
                  h402 hcb hfo hbal]
                simp only [hsend]
              rw [hcalc] at h
              injection h with h1 h2
              exact Except.noConfusion h1
          · have hsend :=
              @sendUSDC_invalid_eq env opt.payTo opt.maxAmountRequired hval
            have hcalc : purchaseProxy env preferredNetwork =
                (.error ("Invalid recipient address: " ++ opt.payTo),
                 [.balanceRead]) := by
              rw [purchaseProxy_after_gate env preferredNetwork req opt
                h402 hcb hfo hbal]
              simp only [hsend]
            rw [hcalc] at h
            injection h with h1 h2
            exact Except.noConfusion h1
        · have hcalc : purchaseProxy env preferredNetwork =
              (.error (clientInsufficientMessage opt.maxAmountRequired
                  env.walletBalance env.walletAddress),
               [.balanceRead, .balanceRead]) := by
            simp only [purchaseProxy, getPaymentRequirement_eq_ok h402 hcb,
              hfo]
            rw [if_neg (by omega)]
          rw [hcalc] at h
          injection h with h1 h2
          exact Except.noConfusion h1
  · have hreq : getPaymentRequirement env =
        .error ("Expected 402 Payment Required, got " ++
          toString env.challengeStatus ++ ": " ++ env.challengeText) := by
      unfold getPaymentRequirement
      rw [if_pos h402]
    have hcalc : purchaseProxy env preferredNetwork =
        (.error ("Expected 402 Payment Required, got " ++
          toString env.challengeStatus ++ ": " ++ env.challengeText),
         []) := by
      simp only [purchaseProxy, hreq]
    rw [hcalc] at h
    injection h with h1 h2
    exact Except.noConfusion h1

/-- Payment option used by the C4 witness. -/
def c4Option : X402AcceptOption :=
  { network := "base", maxAmountRequired := 4000000,
    payTo := "0x1111111111111111111111111111111111111111" }

/-- Concrete environment for a fully successful purchase. -/
def c4Env : PurchaseEnv :=
  { challengeStatus := 402,
    challengeBody := some { accepts := [c4Option] },
    walletAddress := "0x2222222222222222222222222222222222222222",
    walletBalance := 5000000,
    txHash := "0xaaaa",
    onChain := .confirmed,
    fulfillOk := true }

theorem purchaseProxy_transfer_exact_amount_witness :
    ∃ req opt, c4Env.challengeBody = some req ∧
      findPaymentOption "base" req = .ok opt ∧
      ([WalletOp.balanceRead, WalletOp.balanceRead,
        WalletOp.transfer "0x1111111111111111111111111111111111111111"
          4000000] =
        [.balanceRead, .balanceRead,
         .transfer opt.payTo opt.maxAmountRequired]) ∧
      ({} : X402ProxyResponse) = c4Env.fulfillBody :=
  purchaseProxy_transfer_exact_amount c4Env "base" {}
    [.balanceRead, .balanceRead,
     .transfer "0x1111111111111111111111111111111111111111" 4000000] rfl

/-- Claim C5: option selection returns the first option whose network string
is exactly the preferred network when one exists, otherwise the first option
in server-provided order, and fails exactly when the option list is empty. -/
theorem findPaymentOption_selection (preferredNetwork : String)
    (requirement : X402PaymentRequirement) :
    (requirement.accepts = [] →
      findPaymentOption preferredNetwork requirement =
        .error "No payment options available in 402 response") ∧
    ((∃ b ∈ requirement.accepts, b.network = preferredNetwork) →
      ∃ a l1 l2, findPaymentOption preferredNetwork requirement = .ok a ∧
        a.network = preferredNetwork ∧
        requirement.accepts = l1 ++ a :: l2 ∧
        ∀ b ∈ l1, b.network ≠ preferredNetwork) ∧
    ((∀ b ∈ requirement.accepts, b.network ≠ preferredNetwork) →
      ∀ a t, requirement.accepts = a :: t →
        findPaymentOption preferredNetwork requirement = .ok a) ∧
    ((∃ e, findPaymentOption preferredNetwork requirement = .error e) ↔
      requirement.accepts = []) := by
  refine ⟨?_, ?_, ?_, ?_⟩
  · intro h0
    unfold findPaymentOption
    rw [h0]
    simp [List.find?]
  · rintro ⟨b, hbmem, hbnet⟩
    have hsome :
        (requirement.accepts.find?
          (fun a => a.network == preferredNetwork)).isSome := by
      rw [List.find?_isSome]
      exact ⟨b, hbmem, by simp [hbnet]⟩
    obtain ⟨a, ha⟩ := Option.isSome_iff_exists.mp hsome
    obtain ⟨hpa, l1, l2, hsplit, hprev⟩ := List.find?_eq_some.mp ha
    refine ⟨a, l1, l2, ?_, by simpa using hpa, hsplit, ?_⟩
    · unfold findPaymentOption
      rw [ha]
    · intro x hx
      simpa using hprev x hx
  · intro hall a t hacc
    have hnone : requirement.accepts.find?
        (fun x => x.network == preferredNetwork) = none := by
      rw [List.find?_eq_none]
      intro x hx
      simpa using hall x hx
    unfold findPaymentOption
    rw [hnone, hacc]
  · constructor
    · rintro ⟨e, he⟩
      by_contra h0
      obtain ⟨a, t, hacc⟩ := List.exists_cons_of_ne_nil h0
      cases hfind : requirement.accepts.find?
          (fun x => x.network == preferredNetwork) with
      | some x =>
        unfold findPaymentOption at he
        rw [hfind] at he
        exact Except.noConfusion he
      | none =>
        unfold findPaymentOption at he
        rw [hfind, hacc] at he
        exact Except.noConfusion he
    · intro h0
      refine ⟨"No payment options available in 402 response", ?_⟩
      unfold findPaymentOption
      rw [h0]
      simp [List.find?]

/-- Payment option on a network other than the preferred one. -/
def c5OptionA : X402AcceptOption := { network := "networkA" }

/-- Requirement whose only option is on `networkA`. -/
def c5Req : X402PaymentRequirement := { accepts := [c5OptionA] }

theorem findPaymentOption_selection_witness :
    findPaymentOption "networkB" c5Req = .ok c5OptionA :=
  (findPaymentOption_selection "networkB" c5Req).2.2.1 (by decide)
    c5OptionA [] rfl

/-! ## Tool handler model (`src/x402/handlers.ts`) -/

/-- Proxy tier (`X402Tier` in `types.ts`): the tier vocabulary consumed by
the handlers' rate table. -/
inductive X402Tier where
  | shared : X402Tier
  | dedicated : X402Tier
  | premium : X402Tier
deriving DecidableEq

/-- The handlers' `PRICING_RATES` table (hourly dollars, dollars per GB):
shared $0.03/hr + $3.50/GB, dedicated $0.10/hr + $3.00/GB,
premium $0.25/hr + $2.50/GB. -/
def PRICING_RATES : X402Tier → ℚ × ℚ
  | .shared => ((3 : ℚ) / 100, (7 : ℚ) / 2)
  | .dedicated => ((1 : ℚ) / 10, (3 : ℚ))
  | .premium => ((1 : ℚ) / 4, (5 : ℚ) / 2)

/-- Tier vocabulary of the client's own rate table in `client.ts`
(`shared`/`private`; `private` is a reserved word in Lean). -/
inductive ClientTier where
  | shared : ClientTier
  | priv : ClientTier
deriving DecidableEq

/-- The client's `PRICING_RATES` table in `client.ts` (dollars per GB;
duration is free): shared $4.00/GB, private $8.00/GB. -/
def clientPRICING_RATES : ClientTier → ℚ
  | .shared => 4
  | .priv => 8

/-- `X402Client.calculatePricing`: total cost is traffic times the per-GB
rate (duration is free); only the total of the returned pricing record is
modelled. -/
def calculatePricing (_durationHours trafficGB : ℚ) (tier : ClientTier) :
    ℚ :=
  trafficGB * clientPRICING_RATES tier

/-- Arguments of the `x402_get_proxy` tool. -/
structure GetProxyArgs where
  country : String := ""
  duration_hours : Option ℚ := none
  traffic_gb : Option ℚ := none
  tier : Option X402Tier := none
  city : Option String := none
  carrier : Option String := none

/-- JavaScript `x || d` defaulting for numeric arguments: absent or zero
(falsy) selects the default. -/
def jsOrDefault (o : Option ℚ) (d : ℚ) : ℚ :=
  match o with
  | none => d
  | some x => if x = 0 then d else x

/-- The handler's insufficient-balance text (lines joined with newlines). -/
def handlerInsufficientText (expectedCost : ℚ) (balanceMicro : Nat)
    (walletAddress : String) : String :=
  "Insufficient USDC balance!\n\nRequired: ~$" ++ qToFixed2 expectedCost ++
    (" USDC\nAvailable: $" ++ natToFixed2 balanceMicro ++
      " USDC\n\nPlease top up your wallet on Base network:\n") ++
    walletAddress ++ "\n\nSend USDC on Base to continue."

/-- The handler's success text; `Expires` uses `toLocaleString` in the
source, rendered here as the raw timestamp, and numeric display uses Lean's
rational printing — display-only differences. -/
def handlerSuccessText (result : X402ProxyResponse) : String :=
  let proxy := result.session.proxy
  let httpUrl := "http://" ++ proxy.username ++ ":" ++ proxy.password ++
    "@" ++ proxy.host ++ ":" ++ toString proxy.httpPort
  let socksUrl := "socks5://" ++ proxy.username ++ ":" ++ proxy.password ++
    "@" ++ proxy.host ++ ":" ++ toString proxy.socksPort
  let loc := if result.session.location.country = "" then
    result.session.location.countryCode else result.session.location.country
  "Proxy purchased successfully!\n\n--- Connection Details ---\nHTTP:   " ++
    httpUrl ++ "\nSOCKS5: " ++ socksUrl ++
    "\n\n--- Session Info ---\nSession ID: " ++ result.session.id ++
    "\nLocation: " ++ loc ++ "\nExpires: " ++
    toString result.session.expiresAt ++ "\nTraffic: " ++
    toString result.session.traffic.allowedGB ++
    " GB\n\n--- Payment ---\nAmount: $" ++ result.payment.amountPaid ++
    " USDC\nNetwork: " ++ result.payment.network ++ "\nTX Hash: " ++
    result.payment.transactionHash ++
    "\n\n--- Usage ---\nEnvironment variables:\n  HTTP_PROXY=" ++ httpUrl ++
    "\n  HTTPS_PROXY=" ++ httpUrl ++ "\n\nRotation URL: " ++
    result.session.rotationUrl

/-- `X402SessionCache.addSessionFromResponse`: build a `CachedSession` from
the purchase response and upsert it. -/
def addSessionFromResponse (c : SessionCacheData)
    (response : X402ProxyResponse) : SessionCacheData :=
  addSession c
    { id := response.session.id,
      proxy := response.session.proxy,
      expiresAt := response.session.expiresAt,
      location := response.session.location,
      rotationUrl := response.session.rotationUrl,
      rotationToken := response.session.rotationToken }

/-- Observable outcome of the `x402_get_proxy` handler: the text returned to
the caller, the cache state after the call, whether `client.purchaseProxy`
was invoked (the purchase flow includes the 402 challenge fetch), and the
wallet operations performed. -/
structure HandlerOutcome where
  text : String
  cache : SessionCacheData
  purchaseInvoked : Bool
  walletOps : List WalletOp
deriving DecidableEq

/-- The `x402_get_proxy` tool handler: default the arguments, read the
balance, gate on the local estimate `durationHours * hourly +
trafficGB * perGB` from the handlers' rate table, then run the purchase and
cache the session; errors are rendered as text. -/
def x402_get_proxy (env : PurchaseEnv) (preferredNetwork : String)
    (cache : SessionCacheData) (args : GetProxyArgs) : HandlerOutcome :=
  let durationHours := jsOrDefault args.duration_hours 1
  let trafficGB := jsOrDefault args.traffic_gb 1
  let tier := args.tier.getD .shared
  let balanceNum : ℚ := (env.walletBalance : ℚ) / 1000000
  let rates := PRICING_RATES tier
  let expectedCost := durationHours * rates.1 + trafficGB * rates.2
  if balanceNum < expectedCost then
    { text := handlerInsufficientText expectedCost env.walletBalance
        env.walletAddress,
      cache := cache, purchaseInvoked := false, walletOps := [.balanceRead] }
  else
    match purchaseProxy env preferredNetwork with
    | (.error e, ops) =>
      { text := "Failed to purchase proxy: " ++ e, cache := cache,
        purchaseInvoked := true, walletOps := .balanceRead :: ops }
    | (.ok result, ops) =>
      { text := handlerSuccessText result,
        cache := addSessionFromResponse cache result,
        purchaseInvoked := true, walletOps := .balanceRead :: ops }

/-- Claim C10: whenever the wallet's dollar balance is strictly below the
handler's local estimate (computed from the handlers' own rate table), the
handler returns the insufficient-balance text, the purchase flow is never
started — no 402 challenge fetch, no transfer, the cache untouched, only the
handler's own balance read — and the handlers' rate table differs from the
client's `calculatePricing` table on the shared tier. -/
theorem x402_get_proxy_local_estimate_gate (env : PurchaseEnv)
    (preferredNetwork : String) (cache : SessionCacheData)
    (args : GetProxyArgs)
    (h : (env.walletBalance : ℚ) / 1000000 <
      jsOrDefault args.duration_hours 1 *
        (PRICING_RATES (args.tier.getD .shared)).1 +
      jsOrDefault args.traffic_gb 1 *
        (PRICING_RATES (args.tier.getD .shared)).2) :
    x402_get_proxy env preferredNetwork cache args =
      { text := handlerInsufficientText
          (jsOrDefault args.duration_hours 1 *
            (PRICING_RATES (args.tier.getD .shared)).1 +
           jsOrDefault args.traffic_gb 1 *
            (PRICING_RATES (args.tier.getD .shared)).2)
          env.walletBalance env.walletAddress,
        cache := cache, purchaseInvoked := false,
        walletOps := [.balanceRead] } ∧
    (PRICING_RATES .shared).2 ≠ clientPRICING_RATES .shared := by
  constructor
  · unfold x402_get_proxy
    rw [if_pos h]
  · simp only [PRICING_RATES, clientPRICING_RATES]
    norm_num

/-- A 402 option priced below the wallet balance (the binding price was
affordable). -/
def c10Option : X402AcceptOption :=
  { network := "base", maxAmountRequired := 2500000,
    payTo := "0x1111111111111111111111111111111111111111" }

/-- Environment with a $3.00 balance and a $2.50 402 price; the handler's
local shared-tier estimate for 1 h / 1 GB is $3.53. -/
def c10Env : PurchaseEnv :=
  { challengeStatus := 402,
    challengeBody := some { accepts := [c10Option] },
    walletAddress := "0x4444444444444444444444444444444444444444",
    walletBalance := 3000000 }

/-- Default handler arguments (shared tier, 1 hour, 1 GB). -/
def c10Args : GetProxyArgs := { country := "US" }

theorem x402_get_proxy_local_estimate_gate_witness :
    (x402_get_proxy c10Env "base"
        (freshCache "0x4444444444444444444444444444444444444444") c10Args =
      { text := handlerInsufficientText
          (jsOrDefault c10Args.duration_hours 1 *
            (PRICING_RATES (c10Args.tier.getD .shared)).1 +
           jsOrDefault c10Args.traffic_gb 1 *
            (PRICING_RATES (c10Args.tier.getD .shared)).2)
          c10Env.walletBalance c10Env.walletAddress,
        cache := freshCache "0x4444444444444444444444444444444444444444",
        purchaseInvoked := false,
        walletOps := [.balanceRead] } ∧
     (PRICING_RATES .shared).2 ≠ clientPRICING_RATES .shared) ∧
    c10Option.maxAmountRequired ≤ c10Env.walletBalance := by
  refine ⟨x402_get_proxy_local_estimate_gate c10Env "base"
    (freshCache "0x4444444444444444444444444444444444444444") c10Args ?_,
    by decide⟩
  simp only [c10Env, c10Args, jsOrDefault, Option.getD, PRICING_RATES]
  norm_num
